import Mathlib

/-!
Shallow embedding of `src/monitoring.py`: a cron-style AWS monitoring script
that polls Elastic Beanstalk health, EC2 CloudWatch metrics (CPU, memory,
disk), a FOTA HTTP endpoint and an MQTT dashboard, accumulates issue records
in a global list, prints a report and publishes one SNS notification.

Modelling conventions:
- the global mutable `issues` list becomes explicit state passing: each check
  takes the incoming `List Issue` and returns the printed lines together with
  the outgoing list;
- every fallible external interaction (boto3 / requests / selenium call) is an
  `Except String` input: `.ok` carries the data the call returned, `.error`
  carries the exception text caught by the surrounding `try/except`;
- CloudWatch datapoint values are `Rat` (only ordering, `max` and threshold
  comparison matter, so rationals embed the Python floats faithfully);
- `f"{v:.1f}"` float rendering is modelled by `fmt1`; no claim depends on the
  rendered digits, only on which strings are produced around them.
-/

namespace Monitoring

/-- Threshold constant from the configuration block (`CPU_THRESHOLD = 65`). -/
def CPU_THRESHOLD : Rat := 65

/-- Threshold constant from the configuration block (`MEMORY_THRESHOLD = 80`). -/
def MEMORY_THRESHOLD : Rat := 80

/-- Threshold constant from the configuration block (`DISK_THRESHOLD = 85`). -/
def DISK_THRESHOLD : Rat := 85

/-- The `logger_mongo_instances` list of monitored EC2 instance ids. -/
def logger_mongo_instances : List String :=
  ["i-00e0f35f25480f647", "i-0c88e356ad88357b0", "i-070ed38555e983a39"]

/-- The `main_mongo_instances` list of monitored EC2 instance ids. -/
def main_mongo_instances : List String :=
  ["i-0fd0bddfa1f458b4b", "i-0b3819ce528f9cd9f", "i-051daf3ab8bc94e62"]

/-- The `mqtt_instances` list of monitored EC2 instance ids. -/
def mqtt_instances : List String :=
  ["i-0424fb5cb4e35d2d6", "i-0f06227cd4a2e6e15", "i-0333631e1496b0fd1"]

/-- `all_instances = logger_mongo_instances + main_mongo_instances + mqtt_instances`
from the top of `monitor_ec2`. -/
def all_instances : List String :=
  logger_mongo_instances ++ main_mongo_instances ++ mqtt_instances

/-- One issue record. Every dictionary ever appended to the global `issues`
list in the source has exactly the keys `Type`, `Name`, `Metric`, `Status`,
so a fixed four-field structure embeds it. -/
structure Issue where
  «Type» : String
  Name : String
  Metric : String
  Status : String
deriving DecidableEq, Repr

/-- Embeds the Python float rendering `f"{v:.1f}"`. The exact digit string is
not load-bearing for any claim; only that it is a deterministic function of
the value. -/
def fmt1 (v : Rat) : String := toString v

/-- The status text `f"High ({v:.1f}%)"` used by all three EC2 metric issues. -/
def statusHigh (v : Rat) : String := "High (" ++ fmt1 v ++ "%)"

/-- Embeds Python `max(p["Maximum"] for p in points)` over the datapoint list:
`none` exactly when the list is empty (Python guards with `if points:`). -/
def listMax (l : List Rat) : Option Rat := l.max?

/-- The dimensions of one CloudWatch metric, as read by the script:
`dims.get("InstanceId")` and `dims.get("path")`. -/
structure MetricDims where
  instanceId : Option String
  path : Option String
deriving DecidableEq, Repr

/-- One metric returned by `cw.list_metrics`, together with the datapoint
values that `cw.get_metric_statistics` returns for its dimensions (the
`Maximum` statistic of each datapoint). -/
structure MetricEntry where
  dims : MetricDims
  datapoints : List Rat
deriving DecidableEq, Repr

/-- The `--- CPU ---` try-block of `monitor_ec2` for one instance: take the
max over the `CPUUtilization` datapoints, record an issue when it exceeds
`CPU_THRESHOLD`; an exception is caught and printed only. -/
def cpuBlock (name : String) (res : Except String (List Rat))
    (issues : List Issue) : List String × List Issue :=
  match res with
  | .error e => (["⚠ Error fetching CPU: " ++ e], issues)
  | .ok points =>
    match listMax points with
    | none => (["  ⚠ No CPU data available"], issues)
    | some cpu =>
      if CPU_THRESHOLD < cpu then
        (["  CPU Utilization: " ++ fmt1 cpu ++ "%"],
         issues ++ [⟨"EC2", name, "CPU", statusHigh cpu⟩])
      else
        (["  CPU Utilization: " ++ fmt1 cpu ++ "%", "  ✅ CPU OK"], issues)

/-- The scan inside the `--- Memory ---` block: iterate over the
`mem_used_percent` metrics, and at the first one whose `InstanceId` dimension
matches and whose statistics call returned datapoints, compare the max to
`MEMORY_THRESHOLD` and stop (`break`). The Bool is `mem_found`. -/
def memLoop (name instId : String) (ms : List MetricEntry)
    (issues : List Issue) : List String × List Issue × Bool :=
  match ms with
  | [] => ([], issues, false)
  | m :: rest =>
    if m.dims.instanceId = some instId then
      match listMax m.datapoints with
      | some mem =>
        if MEMORY_THRESHOLD < mem then
          (["  Memory Usage: " ++ fmt1 mem ++ "%"],
           issues ++ [⟨"EC2", name, "Memory", statusHigh mem⟩], true)
        else
          (["  Memory Usage: " ++ fmt1 mem ++ "%", "  ✅ Memory OK"], issues, true)
      | none => memLoop name instId rest issues
    else memLoop name instId rest issues

/-- The `--- Memory (Dynamic Detection) ---` try-block of `monitor_ec2`:
an exception anywhere in the block is caught and printed only (no issue can
have been appended before the exception, since the append is the last
fallible-free step before `break`). -/
def memBlock (name instId : String) (res : Except String (List MetricEntry))
    (issues : List Issue) : List String × List Issue :=
  match res with
  | .error e => (["⚠ Error fetching memory: " ++ e], issues)
  | .ok ms =>
    let r := memLoop name instId ms issues
    if r.2.2 then (r.1, r.2.1)
    else (r.1 ++ ["  ⚠ No Memory data available"], r.2.1)

/-- The ad-hoc mount-path skip list of the `--- Disk ---` block. -/
def disk_skip_prefixes : List String :=
  ["/proc", "/dev", "/sys", "/run", "/boot", "/snap"]

/-- Embeds Python `path.startswith(x)`, written over the character lists so
it evaluates by kernel reduction. -/
def strStartsWith (s pre : String) : Bool :=
  pre.data.isPrefixOf s.data

/-- `any(path.startswith(x) for x in [...])`: the `continue` condition. -/
def diskExcluded (path : String) : Bool :=
  disk_skip_prefixes.any (fun x => strStartsWith path x)

/-- `path = dims.get("path", "")` read from a disk metric. -/
def pathOf (m : MetricEntry) : String := m.dims.path.getD ""

/-- The `valid_disks` accumulation of the disk block: every
`disk_used_percent` metric whose `InstanceId` matches, whose path is not in
the skip list, and whose statistics call returned datapoints contributes
`(path or "unknown", max of datapoints)`. -/
def valid_disks (instId : String) (ms : List MetricEntry) : List (String × Rat) :=
  ms.filterMap (fun m =>
    if m.dims.instanceId = some instId then
      if diskExcluded (pathOf m) then none
      else
        match listMax m.datapoints with
        | some usage => some ((if pathOf m = "" then "unknown" else pathOf m), usage)
        | none => none
    else none)

/-- The disk path preference list scanned by the nested `for` loops. -/
def preferred_paths : List String := ["/data", "/", "/mnt"]

/-- The inner loop `for p, val in valid_disks: if p == path: preferred = ...`,
which takes the first entry with the given path. -/
def findDisk (p : String) (ds : List (String × Rat)) : Option (String × Rat) :=
  ds.find? (fun d => d.1 = p)

/-- Embeds `sorted(valid_disks, key=lambda x: x[1], reverse=True)[0]`:
Python sort is stable, so the head of the descending sort is the first
element of maximal usage, which this fold computes (strict `<` keeps the
earlier element on ties). -/
def sortedTop (ds : List (String × Rat)) : Option (String × Rat) :=
  match ds with
  | [] => none
  | d :: rest => some (rest.foldl (fun best x => if best.2 < x.2 then x else best) d)

/-- The `preferred` selection of the disk block: scan `preferred_paths` in
order, take the first entry of `valid_disks` whose path equals the scanned
path; if no preferred path is present, fall back to the highest-usage entry. -/
def choosePreferred (ds : List (String × Rat)) : Option (String × Rat) :=
  match findDisk "/data" ds with
  | some d => some d
  | none =>
    match findDisk "/" ds with
    | some d => some d
    | none =>
      match findDisk "/mnt" ds with
      | some d => some d
      | none => sortedTop ds

/-- The `--- Disk (Ultra Dynamic Detection) ---` try-block of `monitor_ec2`:
collect `valid_disks`, pick the preferred entry, compare its usage to
`DISK_THRESHOLD`; an exception is caught and printed only (the single append
happens after every fallible call of the block). `choosePreferred = none`
exactly when `valid_disks` is empty, i.e. the `if valid_disks:` guard. -/
def diskBlock (name instId : String) (res : Except String (List MetricEntry))
    (issues : List Issue) : List String × List Issue :=
  match res with
  | .error e => (["⚠ Error fetching disk: " ++ e], issues)
  | .ok ms =>
    match choosePreferred (valid_disks instId ms) with
    | none => (["  ⚠ No Disk data available"], issues)
    | some d =>
      if DISK_THRESHOLD < d.2 then
        (["  Disk Usage (" ++ d.1 ++ "): " ++ fmt1 d.2 ++ "%"],
         issues ++ [⟨"EC2", name, "Disk", statusHigh d.2⟩])
      else
        (["  Disk Usage (" ++ d.1 ++ "): " ++ fmt1 d.2 ++ "%", "  ✅ Disk OK"],
         issues)

/-- Everything the script fetches about one EC2 instance: the resolved Name
tag (`get_instance_name`, which falls back to the instance id on any error),
and the three metric fetches, each an `Except` for its try-block. -/
structure InstanceFetch where
  name : String
  cpu : Except String (List Rat)
  mem : Except String (List MetricEntry)
  disk : Except String (List MetricEntry)

/-- The body of the `for inst_id in all_instances` loop of `monitor_ec2`:
header line, then the CPU, memory and disk blocks in order, then a blank. -/
def monitorInstance (instId : String) (f : InstanceFetch)
    (issues : List Issue) : List String × List Issue :=
  let r1 := cpuBlock f.name f.cpu issues
  let r2 := memBlock f.name instId f.mem r1.2
  let r3 := diskBlock f.name instId f.disk r2.2
  (("Instance: " ++ f.name ++ " (" ++ instId ++ ")") :: (r1.1 ++ r2.1 ++ r3.1 ++ [""]),
   r3.2)

/-- The instance loop of `monitor_ec2`, one `InstanceFetch` per instance id. -/
def ec2Loop (fetch : String → InstanceFetch) (ids : List String)
    (issues : List Issue) : List String × List Issue :=
  match ids with
  | [] => ([], issues)
  | id :: rest =>
    let r := monitorInstance id (fetch id) issues
    let r2 := ec2Loop fetch rest r.2
    (r.1 ++ r2.1, r2.2)

/-- `monitor_ec2`: header line, then the loop over `all_instances`. -/
def monitor_ec2 (fetch : String → InstanceFetch)
    (issues : List Issue) : List String × List Issue :=
  let r := ec2Loop fetch all_instances issues
  ("--- EC2 Monitoring (CloudWatch Agent) ---" :: r.1, r.2)

/-- One Elastic Beanstalk environment as read by `monitor_beanstalk`:
`env.get("EnvironmentName", "unknown")`, `env.get("Status")`, `env.get("Health")`. -/
structure EbEnv where
  EnvironmentName : Option String
  Status : Option String
  Health : Option String
deriving DecidableEq, Repr

/-- How a possibly-absent `Health` value ends up rendered in the issue record
(Python would store the object `None`, which renders as the string None). -/
def healthStr : Option String → String
  | some s => s
  | none => "None"

/-- One iteration of the `for env in envs` loop of `monitor_beanstalk`:
skip environments whose Status is Terminated, record a Health issue for any
remaining environment whose Health is not Green. -/
def ebStep (env : EbEnv) (issues : List Issue) : List String × List Issue :=
  let name := env.EnvironmentName.getD "unknown"
  if env.Status = some "Terminated" then ([], issues)
  else if env.Health = some "Green" then
    (["✅ Environment " ++ name ++ " healthy."], issues)
  else
    (["⚠ Environment " ++ name ++ " unhealthy (" ++ healthStr env.Health ++ ")"],
     issues ++ [⟨"Elastic Beanstalk", name, "Health", healthStr env.Health⟩])

/-- The environment loop of `monitor_beanstalk`. -/
def ebLoop (envs : List EbEnv) (issues : List Issue) : List String × List Issue :=
  match envs with
  | [] => ([], issues)
  | env :: rest =>
    let r := ebStep env issues
    let r2 := ebLoop rest r.2
    (r.1 ++ r2.1, r2.2)

/-- `monitor_beanstalk`: on success, loop over the described environments; an
exception is caught, printed, and an Error issue is appended. -/
def monitor_beanstalk (res : Except String (List EbEnv))
    (issues : List Issue) : List String × List Issue :=
  match res with
  | .error e =>
    ("--- Elastic Beanstalk Monitoring ---" :: ["⚠ Error: " ++ e],
     issues ++ [⟨"Elastic Beanstalk", "-", "Error", e⟩])
  | .ok envs =>
    let r := ebLoop envs issues
    ("--- Elastic Beanstalk Monitoring ---" :: r.1, r.2)

/-- The HTTP response of `requests.get("https://fota.kazam.in/time")`. -/
structure FotaResponse where
  status_code : Nat
  text : String
deriving DecidableEq, Repr

/-- Embeds Python `str.strip()` (leading/trailing whitespace removal),
written over the character list so it evaluates by kernel reduction. -/
def pyStrip (s : String) : String :=
  ⟨((s.data.dropWhile Char.isWhitespace).reverse.dropWhile Char.isWhitespace).reverse⟩

/-- Embeds Python `str.isdigit()`: true exactly for a nonempty string all of
whose characters are digits (ASCII digits suffice for this endpoint, which
returns a Unix timestamp). -/
def pyIsDigit (s : String) : Bool := (!s.data.isEmpty) && s.data.all Char.isDigit

/-- `check_fota_api`: healthy iff status 200 and the stripped body is all
digits; any other response appends an Invalid issue; an exception is caught,
printed, and appends an Exception issue carrying the exception text. -/
def check_fota_api (res : Except String FotaResponse)
    (issues : List Issue) : List String × List Issue :=
  match res with
  | .ok r =>
    if r.status_code = 200 ∧ pyIsDigit (pyStrip r.text) = true then
      ("--- FOTA API Check ---" :: ["✅ FOTA API healthy."], issues)
    else
      ("--- FOTA API Check ---" :: ["❌ Invalid FOTA response."],
       issues ++ [⟨"FOTA API", "fota.kazam.in/time", "Response", "Invalid"⟩])
  | .error e =>
    ("--- FOTA API Check ---" :: ["❌ FOTA API check failed: " ++ e],
     issues ++ [⟨"FOTA API", "fota.kazam.in/time", "Exception", e⟩])

/-- A scraped row of the MQTT dashboard nodes table (its `.cell` texts). -/
abbrev MqttRow := List String

/-- Rendering stand-in for `tabulate(..., tablefmt="grid")`; the exact glyphs
are not load-bearing for any claim, only that the rendered text is a function
of the rows. -/
def renderTable (rows : List (List String)) : String :=
  String.intercalate "\x0A" (rows.map (String.intercalate " | "))

/-- `monitor_mqtt_nodes`: skipped entirely without credentials; on success it
only prints the scraped table (never appends an issue); an exception is
caught, printed, and appends an MQTT Node Connection issue. -/
def monitor_mqtt_nodes (creds : Bool) (res : Except String (List MqttRow))
    (issues : List Issue) : List String × List Issue :=
  if !creds then
    (["⚠ MQTT credentials not provided; skipping MQTT check."], issues)
  else
    match res with
    | .ok rows =>
      let data := rows.filterMap (fun cols =>
        if 7 ≤ cols.length then
          some [cols.getD 0 "", cols.getD 5 "", cols.getD 6 ""]
        else none)
      ("--- MQTT Nodes Status ---" ::
        (if data.isEmpty then ["⚠ No MQTT nodes found."] else [renderTable data]),
       issues)
    | .error e =>
      ("--- MQTT Nodes Status ---" :: ["⚠ Error monitoring MQTT nodes: " ++ e],
       issues ++ [⟨"MQTT Node", "All", "Connection", "Failed: " ++ e⟩])

/-- The rows of the issues summary table: `print_summary` filters out records
of Type MQTT Node before tabulating. -/
def summaryRows (issues : List Issue) : List (List String) :=
  (issues.filter (fun i => i.«Type» != "MQTT Node")).map
    (fun i => [i.«Type», i.Name, i.Metric, i.Status])

/-- `print_summary`: with an empty issues list, print the all-healthy line;
otherwise tabulate the (MQTT-filtered) rows. -/
def print_summary (issues : List Issue) : List String :=
  "--- ⚠ Issues Summary ---" ::
    (if issues.isEmpty then ["✅ No issues detected. All systems healthy."]
     else [renderTable (summaryRows issues)])

/-- The issues that count toward the notification subject:
`[i for i in issues if i["Type"] != "MQTT Node"]` in `__main__`. -/
def filteredIssues (issues : List Issue) : List Issue :=
  issues.filter (fun i => i.«Type» != "MQTT Node")

/-- The SNS subject chosen in `__main__` from the filtered issue count. -/
def subjectOf (issues : List Issue) : String :=
  if (filteredIssues issues).isEmpty then
    "✅ AWS Monitoring Report - All Systems Healthy"
  else
    "⚠️ AWS Monitoring Alert - " ++ toString (filteredIssues issues).length ++
      " Issues Detected"

/-- The `urgency` message attribute of `send_sns`:
high if `issues` (the unfiltered global list) is nonempty, else normal. -/
def urgencyOf (issues : List Issue) : String :=
  if issues.isEmpty then "normal" else "high"

/-- An observable action of one run: the five check sections (with their
captured output lines), the report print after stdout is restored, the
single `sns.publish` call, and the line printed about its outcome. -/
inductive Event where
  | check (label : String) (printed : List String)
  | printReport (report : String)
  | snsPublish (topicArn subject message urgency : String)
  | printLine (s : String)
deriving DecidableEq, Repr

/-- True exactly on the `sns.publish` event. -/
def Event.isPublish : Event → Bool
  | .snsPublish _ _ _ _ => true
  | _ => false

/-- True exactly on a monitoring-check event. -/
def Event.isCheck : Event → Bool
  | .check _ _ => true
  | _ => false

/-- `send_sns`: the publish call is made (with the urgency attribute derived
from the unfiltered issues list); success or failure of the call is then
printed, and a failure is swallowed. -/
def send_sns (topicArn : String) (snsRes : Except String String)
    (subject message : String) (issues : List Issue) : List Event :=
  Event.snsPublish topicArn subject message (urgencyOf issues) ::
    (match snsRes with
     | .ok msgId => [Event.printLine ("✅ SNS message sent. ID: " ++ msgId)]
     | .error e => [Event.printLine ("❌ SNS publish failed: " ++ e)])

/-- Everything the outside world supplies to one run of the script. -/
structure World where
  snsTopicArn : String
  eb : Except String (List EbEnv)
  ec2 : String → InstanceFetch
  fota : Except String FotaResponse
  mqttCreds : Bool
  mqtt : Except String (List MqttRow)
  sns : Except String String

/-- The `__main__` block: redirect stdout to a buffer, run the four checks and
the summary strictly in sequence, restore stdout, print the captured report,
and send it as a single SNS notification whose subject counts the filtered
issues. -/
def runMain (w : World) : List Event × List Issue :=
  let r1 := monitor_beanstalk w.eb []
  let r2 := monitor_ec2 w.ec2 r1.2
  let r3 := check_fota_api w.fota r2.2
  let r4 := monitor_mqtt_nodes w.mqttCreds w.mqtt r3.2
  let o5 := print_summary r4.2
  let report := String.intercalate "\x0A" (r1.1 ++ r2.1 ++ r3.1 ++ r4.1 ++ o5)
  ([Event.check "monitor_beanstalk" r1.1, Event.check "monitor_ec2" r2.1,
    Event.check "check_fota_api" r3.1, Event.check "monitor_mqtt_nodes" r4.1,
    Event.check "print_summary" o5, Event.printReport report]
    ++ send_sns w.snsTopicArn w.sns (subjectOf r4.2) report r4.2,
   r4.2)

/-- The issue contribution of one Beanstalk environment, read off the loop
body of `monitor_beanstalk`: nothing for a Terminated environment, nothing
for a Green one, otherwise a Health issue carrying the Health value. -/
def ebIssueOf (env : EbEnv) : Option Issue :=
  if env.Status = some "Terminated" then none
  else if env.Health = some "Green" then none
  else some ⟨"Elastic Beanstalk", env.EnvironmentName.getD "unknown",
    "Health", healthStr env.Health⟩

/-- The datapoint list the memory block ends up comparing: the datapoints of
the first `mem_used_percent` metric whose `InstanceId` dimension matches and
whose statistics call returned a nonempty datapoint list (the loop breaks
there). -/
def memChosen (instId : String) (ms : List MetricEntry) : Option (List Rat) :=
  match ms with
  | [] => none
  | m :: rest =>
    if m.dims.instanceId = some instId then
      match listMax m.datapoints with
      | some _ => some m.datapoints
      | none => memChosen instId rest
    else memChosen instId rest

/-! Append-only state lemmas: every check's printed output is independent of
the incoming issues list, and its outgoing list is the incoming one with the
check's own records appended. These embed the fact that the source only ever
calls `issues.append(...)` on the global list. -/

theorem cpuBlock_state (n : String) (r : Except String (List Rat))
    (issues : List Issue) :
    cpuBlock n r issues = ((cpuBlock n r []).1, issues ++ (cpuBlock n r []).2) := by
  cases r with
  | error e => simp [cpuBlock]
  | ok pts =>
    cases h : listMax pts with
    | none => simp [cpuBlock, h]
    | some v =>
      by_cases hv : CPU_THRESHOLD < v
      · simp [cpuBlock, h, hv]
      · simp [cpuBlock, h, hv]

theorem memLoop_state (n i : String) (ms : List MetricEntry)
    (issues : List Issue) :
    memLoop n i ms issues =
      ((memLoop n i ms []).1, issues ++ (memLoop n i ms []).2.1,
        (memLoop n i ms []).2.2) := by
  induction ms with
  | nil => simp [memLoop]
  | cons m rest ih =>
    by_cases hi : m.dims.instanceId = some i
    · cases h : listMax m.datapoints with
      | none => simpa [memLoop, hi, h] using ih
      | some v =>
        by_cases hv : MEMORY_THRESHOLD < v
        · simp [memLoop, hi, h, hv]
        · simp [memLoop, hi, h, hv]
    · simpa [memLoop, hi] using ih

theorem memBlock_state (n i : String) (r : Except String (List MetricEntry))
    (issues : List Issue) :
    memBlock n i r issues = ((memBlock n i r []).1, issues ++ (memBlock n i r []).2) := by
  cases r with
  | error e => simp [memBlock]
  | ok ms =>
    have h := memLoop_state n i ms issues
    by_cases hf : (memLoop n i ms []).2.2
    · simp [memBlock, h, hf]
    · simp [memBlock, h, hf]

theorem diskBlock_state (n i : String) (r : Except String (List MetricEntry))
    (issues : List Issue) :
    diskBlock n i r issues = ((diskBlock n i r []).1, issues ++ (diskBlock n i r []).2) := by
  cases r with
  | error e => simp [diskBlock]
  | ok ms =>
    cases h : choosePreferred (valid_disks i ms) with
    | none => simp [diskBlock, h]
    | some d =>
      by_cases hv : DISK_THRESHOLD < d.2
      · simp [diskBlock, h, hv]
      · simp [diskBlock, h, hv]

theorem seq_state {f g : List Issue → List String × List Issue}
    (hf : ∀ issues, f issues = ((f []).1, issues ++ (f []).2))
    (hg : ∀ issues, g issues = ((g []).1, issues ++ (g []).2))
    (issues : List Issue) :
    g (f issues).2 = ((g (f []).2).1, issues ++ (g (f []).2).2) := by
  rw [hf issues]
  dsimp only
  rw [hg (issues ++ (f []).2), hg ((f []).2)]
  dsimp only
  rw [List.append_assoc]

theorem monitorInstance_state (i : String) (f : InstanceFetch)
    (issues : List Issue) :
    monitorInstance i f issues =
      ((monitorInstance i f []).1, issues ++ (monitorInstance i f []).2) := by
  have h1 := cpuBlock_state f.name f.cpu
  have h12 := fun iss => seq_state h1 (memBlock_state f.name i f.mem) iss
  have h123 := fun iss => seq_state h12 (diskBlock_state f.name i f.disk) iss
  have e1 := congrArg Prod.fst (h1 issues)
  have e2 := congrArg Prod.fst (h12 issues)
  have e3 := congrArg Prod.fst (h123 issues)
  have e4 := congrArg Prod.snd (h123 issues)
  dsimp only at e1 e2 e3 e4
  simp only [monitorInstance]
  rw [e1, e2, e3, e4]

theorem ec2Loop_state (fetch : String → InstanceFetch) (ids : List String)
    (issues : List Issue) :
    ec2Loop fetch ids issues =
      ((ec2Loop fetch ids []).1, issues ++ (ec2Loop fetch ids []).2) := by
  induction ids generalizing issues with
  | nil => simp [ec2Loop]
  | cons id rest ih =>
    have hm := monitorInstance_state id (fetch id)
    have hcomp := fun iss => seq_state hm ih iss
    have e1 := congrArg Prod.fst (hm issues)
    have e2 := congrArg Prod.fst (hcomp issues)
    have e3 := congrArg Prod.snd (hcomp issues)
    dsimp only at e1 e2 e3
    simp only [ec2Loop]
    rw [e1, e2, e3]

theorem monitor_ec2_state (fetch : String → InstanceFetch) (issues : List Issue) :
    monitor_ec2 fetch issues =
      ((monitor_ec2 fetch []).1, issues ++ (monitor_ec2 fetch []).2) := by
  simp only [monitor_ec2, ec2Loop_state fetch all_instances issues]

theorem ebLoop_state (envs : List EbEnv) (issues : List Issue) :
    ebLoop envs issues = ((ebLoop envs []).1, issues ++ (ebLoop envs []).2) := by
  induction envs generalizing issues with
  | nil => simp [ebLoop]
  | cons env rest ih =>
    have hstep : ∀ iss, ebStep env iss = ((ebStep env []).1, iss ++ (ebStep env []).2) := by
      intro iss
      by_cases ht : env.Status = some "Terminated"
      · simp [ebStep, ht]
      · by_cases hg : env.Health = some "Green"
        · simp [ebStep, ht, hg]
        · simp [ebStep, ht, hg]
    have hcomp := fun iss => seq_state hstep ih iss
    have e1 := congrArg Prod.fst (hstep issues)
    have e2 := congrArg Prod.fst (hcomp issues)
    have e3 := congrArg Prod.snd (hcomp issues)
    dsimp only at e1 e2 e3
    simp only [ebLoop]
    rw [e1, e2, e3]

theorem monitor_beanstalk_state (res : Except String (List EbEnv))
    (issues : List Issue) :
    monitor_beanstalk res issues =
      ((monitor_beanstalk res []).1, issues ++ (monitor_beanstalk res []).2) := by
  cases res with
  | error e => simp [monitor_beanstalk]
  | ok envs => simp only [monitor_beanstalk, ebLoop_state envs issues]

theorem check_fota_api_state (res : Except String FotaResponse)
    (issues : List Issue) :
    check_fota_api res issues =
      ((check_fota_api res []).1, issues ++ (check_fota_api res []).2) := by
  cases res with
  | error e => simp [check_fota_api]
  | ok r =>
    by_cases h : r.status_code = 200 ∧ pyIsDigit (pyStrip r.text) = true
    · simp [check_fota_api, h]
    · simp [check_fota_api, h]

theorem monitor_mqtt_nodes_state (creds : Bool) (res : Except String (List MqttRow))
    (issues : List Issue) :
    monitor_mqtt_nodes creds res issues =
      ((monitor_mqtt_nodes creds res []).1, issues ++ (monitor_mqtt_nodes creds res []).2) := by
  cases creds with
  | false => simp [monitor_mqtt_nodes]
  | true =>
    cases res with
    | error e => simp [monitor_mqtt_nodes]
    | ok rows => simp [monitor_mqtt_nodes]

/-! Structural helper lemmas about the individual checks. -/

theorem listMax_spec (l : List Rat) (v : Rat) (h : listMax l = some v) :
    v ∈ l ∧ ∀ x ∈ l, x ≤ v := by
  have inst : Std.Antisymm (fun x1 x2 : Rat => x1 ≤ x2) := ⟨@le_antisymm Rat _⟩
  rw [listMax, List.max?_eq_some_iff le_refl max_choice (fun _ _ _ => max_le_iff)] at h
  exact ⟨h.1, h.2⟩

theorem ebLoop_filterMap (envs : List EbEnv) (issues : List Issue) :
    (ebLoop envs issues).2 = issues ++ envs.filterMap ebIssueOf := by
  induction envs generalizing issues with
  | nil => simp [ebLoop]
  | cons env rest ih =>
    simp only [ebLoop]
    by_cases ht : env.Status = some "Terminated"
    · simp [ebStep, ebIssueOf, ht, ih]
    · by_cases hg : env.Health = some "Green"
      · simp [ebStep, ebIssueOf, ht, hg, ih]
      · simp [ebStep, ebIssueOf, ht, hg, ih]

theorem memLoop_of_chosen (name instId : String) (pts : List Rat) (v : Rat)
    (hv : listMax pts = some v) (ms : List MetricEntry) (issues : List Issue)
    (h : memChosen instId ms = some pts) :
    ((memLoop name instId ms issues).2.1 =
        issues ++ (if MEMORY_THRESHOLD < v
          then [⟨"EC2", name, "Memory", statusHigh v⟩] else [])) ∧
      (memLoop name instId ms issues).2.2 = true := by
  induction ms generalizing issues with
  | nil => simp [memChosen] at h
  | cons m rest ih =>
    by_cases hi : m.dims.instanceId = some instId
    · cases h3 : listMax m.datapoints with
      | some w =>
        simp only [memChosen, if_pos hi, h3] at h
        have hpts : m.datapoints = pts := by simpa using h
        subst hpts
        have hw : w = v := by
          rw [hv] at h3
          exact (Option.some.inj h3).symm
        subst hw
        by_cases hth : MEMORY_THRESHOLD < w
        · simp [memLoop, hi, h3, hth]
        · simp [memLoop, hi, h3, hth]
      | none =>
        simp only [memChosen, if_pos hi, h3] at h
        simpa [memLoop, hi, h3] using ih issues h
    · simp only [memChosen, if_neg hi] at h
      simpa [memLoop, hi] using ih issues h

theorem mem_valid_disks (instId : String) (ms : List MetricEntry)
    (e : String × Rat) :
    e ∈ valid_disks instId ms ↔
      ∃ m ∈ ms, m.dims.instanceId = some instId ∧
        diskExcluded (pathOf m) = false ∧
        listMax m.datapoints = some e.2 ∧
        e.1 = (if pathOf m = "" then "unknown" else pathOf m) := by
  obtain ⟨p, u⟩ := e
  simp only [valid_disks, List.mem_filterMap]
  constructor
  · rintro ⟨m, hm, hsome⟩
    by_cases h1 : m.dims.instanceId = some instId
    · by_cases h2 : diskExcluded (pathOf m)
      · simp [h1, h2] at hsome
      · cases h3 : listMax m.datapoints with
        | none => simp [h1, h2, h3] at hsome
        | some w =>
          simp only [if_pos h1, if_neg h2, h3] at hsome
          obtain ⟨hp, hu⟩ := Prod.mk.injEq .. ▸ Option.some.inj hsome
          exact ⟨m, hm, h1, Bool.eq_false_iff.mpr h2, by simp [h3, hu], hp.symm⟩
    · simp [h1] at hsome
  · rintro ⟨m, hm, h1, h2, h3, hp⟩
    refine ⟨m, hm, ?_⟩
    rw [if_pos h1, if_neg (by simp [h2]), h3, hp]

theorem sortedFold_spec (rest : List (String × Rat)) :
    ∀ d : String × Rat,
      (rest.foldl (fun best x => if best.2 < x.2 then x else best) d = d ∨
        rest.foldl (fun best x => if best.2 < x.2 then x else best) d ∈ rest) ∧
      d.2 ≤ (rest.foldl (fun best x => if best.2 < x.2 then x else best) d).2 ∧
      ∀ x ∈ rest, x.2 ≤ (rest.foldl (fun best x => if best.2 < x.2 then x else best) d).2 := by
  induction rest with
  | nil => intro d; simp
  | cons y ys ih =>
    intro d
    simp only [List.foldl_cons]
    by_cases hy : d.2 < y.2
    · rw [if_pos hy]
      obtain ⟨hmem, hle, hbound⟩ := ih y
      refine ⟨?_, le_trans (le_of_lt hy) hle, ?_⟩
      · rcases hmem with h | h
        · right; rw [h]; exact List.mem_cons_self y ys
        · right; exact List.mem_cons_of_mem y h
      · intro x hx
        rcases List.mem_cons.mp hx with rfl | hx
        · exact hle
        · exact hbound x hx
    · rw [if_neg hy]
      obtain ⟨hmem, hle, hbound⟩ := ih d
      refine ⟨?_, hle, ?_⟩
      · rcases hmem with h | h
        · left; exact h
        · right; exact List.mem_cons_of_mem y h
      · intro x hx
        rcases List.mem_cons.mp hx with rfl | hx
        · exact le_trans (le_of_not_lt hy) hle
        · exact hbound x hx

theorem sortedTop_spec (ds : List (String × Rat)) (c : String × Rat)
    (h : sortedTop ds = some c) : c ∈ ds ∧ ∀ d ∈ ds, d.2 ≤ c.2 := by
  cases ds with
  | nil => simp [sortedTop] at h
  | cons d rest =>
    simp only [sortedTop, Option.some.injEq] at h
    obtain ⟨hmem, hle, hbound⟩ := sortedFold_spec rest d
    subst h
    constructor
    · rcases hmem with h | h
      · rw [h]; exact List.mem_cons_self d rest
      · exact List.mem_cons_of_mem d h
    · intro x hx
      rcases List.mem_cons.mp hx with rfl | hx
      · exact hle
      · exact hbound x hx

theorem choosePreferred_mem (ds : List (String × Rat)) (c : String × Rat)
    (h : choosePreferred ds = some c) : c ∈ ds := by
  simp only [choosePreferred] at h
  cases h1 : findDisk "/data" ds with
  | some d =>
    rw [h1] at h
    dsimp only at h
    obtain rfl : d = c := Option.some.inj h
    exact List.mem_of_find?_eq_some h1
  | none =>
    rw [h1] at h
    dsimp only at h
    cases h2 : findDisk "/" ds with
    | some d =>
      rw [h2] at h
      dsimp only at h
      obtain rfl : d = c := Option.some.inj h
      exact List.mem_of_find?_eq_some h2
    | none =>
      rw [h2] at h
      dsimp only at h
      cases h3 : findDisk "/mnt" ds with
      | some d =>
        rw [h3] at h
        dsimp only at h
        obtain rfl : d = c := Option.some.inj h
        exact List.mem_of_find?_eq_some h3
      | none =>
        rw [h3] at h
        dsimp only at h
        exact (sortedTop_spec ds c h).1

theorem choosePreferred_isSome (ds : List (String × Rat)) (hne : ds ≠ []) :
    ∃ c, choosePreferred ds = some c := by
  cases ds with
  | nil => exact absurd rfl hne
  | cons d rest =>
    simp only [choosePreferred]
    cases h1 : findDisk "/data" (d :: rest) with
    | some c => exact ⟨c, rfl⟩
    | none =>
      cases h2 : findDisk "/" (d :: rest) with
      | some c => exact ⟨c, rfl⟩
      | none =>
        cases h3 : findDisk "/mnt" (d :: rest) with
        | some c => exact ⟨c, rfl⟩
        | none => exact ⟨_, rfl⟩

theorem memBlock_snd_eq_loop (n i : String) (ms : List MetricEntry)
    (issues : List Issue) :
    (memBlock n i (Except.ok ms) issues).2 = (memLoop n i ms issues).2.1 := by
  simp only [memBlock]
  split <;> rfl

/-! Claim theorems. -/

/-- Claim C6: the issues list only grows — every check either leaves it
unchanged or appends records (never removing or mutating existing ones), and
every record is an `Issue`, a structure with exactly the fields Type, Name,
Metric, Status. -/
theorem claim_issues_append_only (issues : List Issue) :
    (∀ res, ∃ d, (monitor_beanstalk res issues).2 = issues ++ d) ∧
    (∀ fetch, ∃ d, (monitor_ec2 fetch issues).2 = issues ++ d) ∧
    (∀ res, ∃ d, (check_fota_api res issues).2 = issues ++ d) ∧
    (∀ creds res, ∃ d, (monitor_mqtt_nodes creds res issues).2 = issues ++ d) :=
  ⟨fun res => ⟨_, congrArg Prod.snd (monitor_beanstalk_state res issues)⟩,
   fun fetch => ⟨_, congrArg Prod.snd (monitor_ec2_state fetch issues)⟩,
   fun res => ⟨_, congrArg Prod.snd (check_fota_api_state res issues)⟩,
   fun creds res => ⟨_, congrArg Prod.snd (monitor_mqtt_nodes_state creds res issues)⟩⟩

/-- Claim C3 counterexample: an exception in the Beanstalk check is NOT
swallowed with printing as its only effect — the handler also appends an
Error issue record, so the issues list changes. -/
theorem claim_swallow_counterexample :
    (monitor_beanstalk (Except.error "boom") []).2 ≠ [] := by
  simp [monitor_beanstalk]

/-- Claim C3 (amended): every exception raised inside a monitoring check is
caught and never re-raised, so execution continues to the next check and the
final notification; the EC2 metric-fetch handlers and the SNS publish handler
only print, while the Beanstalk, FOTA and MQTT handlers additionally append
one issue record describing the failure. -/
theorem claim_errors_swallowed :
    (∀ (n e : String) (issues : List Issue),
        (cpuBlock n (Except.error e) issues).2 = issues) ∧
    (∀ (n i e : String) (issues : List Issue),
        (memBlock n i (Except.error e) issues).2 = issues) ∧
    (∀ (n i e : String) (issues : List Issue),
        (diskBlock n i (Except.error e) issues).2 = issues) ∧
    (∀ (e : String) (issues : List Issue),
        (monitor_beanstalk (Except.error e) issues).2 =
          issues ++ [⟨"Elastic Beanstalk", "-", "Error", e⟩]) ∧
    (∀ (e : String) (issues : List Issue),
        (check_fota_api (Except.error e) issues).2 =
          issues ++ [⟨"FOTA API", "fota.kazam.in/time", "Exception", e⟩]) ∧
    (∀ (e : String) (issues : List Issue),
        (monitor_mqtt_nodes true (Except.error e) issues).2 =
          issues ++ [⟨"MQTT Node", "All", "Connection", "Failed: " ++ e⟩]) ∧
    (∀ w : World, (runMain w).1.any Event.isPublish = true) := by
  refine ⟨fun n e issues => rfl, fun n i e issues => rfl, fun n i e issues => rfl,
          fun e issues => rfl, fun e issues => rfl, fun e issues => rfl, fun w => ?_⟩
  simp [runMain, send_sns, Event.isPublish]

/-- Claim C7: a Terminated Beanstalk environment is skipped entirely, and
each remaining environment contributes a Health issue carrying its Health
value exactly when that value is not Green. -/
theorem claim_beanstalk_health (envs : List EbEnv) (issues : List Issue) :
    (monitor_beanstalk (Except.ok envs) issues).2 = issues ++ envs.filterMap ebIssueOf ∧
    (∀ env : EbEnv, ebIssueOf env = none ↔
        (env.Status = some "Terminated" ∨ env.Health = some "Green")) ∧
    (∀ env : EbEnv, env.Status ≠ some "Terminated" → env.Health ≠ some "Green" →
        ebIssueOf env = some ⟨"Elastic Beanstalk", env.EnvironmentName.getD "unknown",
          "Health", healthStr env.Health⟩) := by
  refine ⟨?_, ?_, ?_⟩
  · simpa [monitor_beanstalk] using ebLoop_filterMap envs issues
  · intro env
    by_cases ht : env.Status = some "Terminated"
    · simp [ebIssueOf, ht]
    · by_cases hg : env.Health = some "Green"
      · simp [ebIssueOf, ht, hg]
      · simp [ebIssueOf, ht, hg]
  · intro env ht hg
    simp [ebIssueOf, ht, hg]

/-- Claim C7 witness: a concrete run over one Terminated, one Green and one
Red environment appends exactly the Red environment's Health issue. -/
theorem claim_beanstalk_health_witness :
    (monitor_beanstalk (Except.ok
        [⟨some "a", some "Terminated", some "Red"⟩,
         ⟨some "b", some "Ready", some "Green"⟩,
         ⟨some "c", some "Ready", some "Red"⟩]) []).2 =
      [] ++ [⟨"Elastic Beanstalk", "c", "Health", healthStr (some "Red")⟩] ∧
    ebIssueOf ⟨some "a", some "Terminated", some "Red"⟩ = none := by
  constructor
  · rw [(claim_beanstalk_health
        [⟨some "a", some "Terminated", some "Red"⟩,
         ⟨some "b", some "Ready", some "Green"⟩,
         ⟨some "c", some "Ready", some "Red"⟩] []).1]
    decide
  · exact ((claim_beanstalk_health [] []).2.1
      ⟨some "a", some "Terminated", some "Red"⟩).mpr (Or.inl rfl)

/-- Claim C10: the FOTA check records no issue iff the response has status
200 and a whitespace-stripped all-digit (nonempty, as Python isdigit
demands) body; any other response appends a Status Invalid issue; an
exception appends a Metric Exception issue carrying the exception text. -/
theorem claim_fota_decision (r : FotaResponse) (e : String) (issues : List Issue) :
    ((check_fota_api (Except.ok r) issues).2 = issues ↔
      (r.status_code = 200 ∧ pyIsDigit (pyStrip r.text) = true)) ∧
    (¬(r.status_code = 200 ∧ pyIsDigit (pyStrip r.text) = true) →
      (check_fota_api (Except.ok r) issues).2 =
        issues ++ [⟨"FOTA API", "fota.kazam.in/time", "Response", "Invalid"⟩]) ∧
    (check_fota_api (Except.error e) issues).2 =
      issues ++ [⟨"FOTA API", "fota.kazam.in/time", "Exception", e⟩] := by
  refine ⟨?_, ?_, rfl⟩
  · by_cases h : r.status_code = 200 ∧ pyIsDigit (pyStrip r.text) = true
    · simp [check_fota_api, h]
    · simp [check_fota_api, h]
  · intro h
    simp [check_fota_api, h]

/-- Claim C10 witness: a 200 response with body a timestamp records nothing;
a 200 response with blank body is Invalid; an exception is recorded with its
text. -/
theorem claim_fota_decision_witness :
    (check_fota_api (Except.ok ⟨200, " 1712 "⟩) []).2 = [] ∧
    (check_fota_api (Except.ok ⟨200, "  "⟩) []).2 =
      [] ++ [⟨"FOTA API", "fota.kazam.in/time", "Response", "Invalid"⟩] ∧
    (check_fota_api (Except.error "down") []).2 =
      [] ++ [⟨"FOTA API", "fota.kazam.in/time", "Exception", "down"⟩] :=
  ⟨(claim_fota_decision ⟨200, " 1712 "⟩ "down" []).1.mpr (by decide),
   (claim_fota_decision ⟨200, "  "⟩ "down" []).2.1 (by decide),
   (claim_fota_decision ⟨200, "  "⟩ "down" []).2.2⟩

/-- Claim C4: a disk_used_percent metric of a monitored instance is excluded
from consideration exactly when its path dimension starts with one of /proc,
/dev, /sys, /run, /boot, /snap; every surviving metric with datapoints
contributes its (path, max usage) entry to `valid_disks`. -/
theorem claim_disk_filter (instId : String) (ms : List MetricEntry) :
    (∀ path : String, diskExcluded path = true ↔
        ∃ x ∈ disk_skip_prefixes, strStartsWith path x = true) ∧
    (∀ e : String × Rat, e ∈ valid_disks instId ms ↔
        ∃ m ∈ ms, m.dims.instanceId = some instId ∧
          diskExcluded (pathOf m) = false ∧
          listMax m.datapoints = some e.2 ∧
          e.1 = (if pathOf m = "" then "unknown" else pathOf m)) := by
  refine ⟨?_, fun e => mem_valid_disks instId ms e⟩
  intro path
  simp [diskExcluded, List.any_eq_true]

/-- Claim C4 witness: with one /proc-mounted metric and one /data metric of
the same instance, only the /data entry survives the filter. -/
theorem claim_disk_filter_witness :
    (diskExcluded "/proc/x" = true) ∧
    (("/data", (10 : Rat)) ∈ valid_disks "i-1"
        [⟨⟨some "i-1", some "/proc/x"⟩, [50]⟩,
         ⟨⟨some "i-1", some "/data"⟩, [10]⟩]) ∧
    (("/proc/x", (50 : Rat)) ∉ valid_disks "i-1"
        [⟨⟨some "i-1", some "/proc/x"⟩, [50]⟩,
         ⟨⟨some "i-1", some "/data"⟩, [10]⟩]) := by
  refine ⟨?_, ?_, ?_⟩
  · exact ((claim_disk_filter "i-1" []).1 "/proc/x").mpr ⟨"/proc", by decide, by decide⟩
  · exact ((claim_disk_filter "i-1"
        [⟨⟨some "i-1", some "/proc/x"⟩, [50]⟩,
         ⟨⟨some "i-1", some "/data"⟩, [10]⟩]).2 ("/data", (10 : Rat))).mpr
      ⟨⟨⟨some "i-1", some "/data"⟩, [10]⟩, by decide, rfl, by decide, by decide, by decide⟩
  · intro hmem
    obtain ⟨m, hm, -, hexcl, -, hpath⟩ := ((claim_disk_filter "i-1"
        [⟨⟨some "i-1", some "/proc/x"⟩, [50]⟩,
         ⟨⟨some "i-1", some "/data"⟩, [10]⟩]).2 ("/proc/x", (50 : Rat))).mp hmem
    rcases List.mem_cons.mp hm with rfl | hm
    · exact absurd hexcl (by decide)
    · rcases List.mem_cons.mp hm with rfl | hm
      · exact absurd hpath (by decide)
      · simp at hm

/-- Claim C8: issue records of Type MQTT Node are excluded from the printed
issues summary table and from the notification subject's count, but count
toward the urgency attribute: a run whose only issues are MQTT Node issues
reports all systems healthy in the subject while sending urgency high. -/
theorem claim_mqtt_visibility (issues : List Issue)
    (h1 : issues ≠ [])
    (h2 : ∀ i ∈ issues, i.«Type» = "MQTT Node") :
    summaryRows issues = [] ∧
    filteredIssues issues = [] ∧
    subjectOf issues = "✅ AWS Monitoring Report - All Systems Healthy" ∧
    urgencyOf issues = "high" := by
  have hfil : issues.filter (fun i => i.«Type» != "MQTT Node") = [] := by
    rw [List.filter_eq_nil_iff]
    intro i hi
    simp [h2 i hi]
  refine ⟨?_, hfil, ?_, ?_⟩
  · simp [summaryRows, hfil]
  · simp [subjectOf, filteredIssues, hfil]
  · simp [urgencyOf, h1]

/-- Claim C8 witness: a run whose single issue is an MQTT connection failure
prints an empty table, reports all healthy in the subject, and sends urgency
high. -/
theorem claim_mqtt_visibility_witness :
    summaryRows [⟨"MQTT Node", "All", "Connection", "Failed: timeout"⟩] = [] ∧
    filteredIssues [⟨"MQTT Node", "All", "Connection", "Failed: timeout"⟩] = [] ∧
    subjectOf [⟨"MQTT Node", "All", "Connection", "Failed: timeout"⟩] =
      "✅ AWS Monitoring Report - All Systems Healthy" ∧
    urgencyOf [⟨"MQTT Node", "All", "Connection", "Failed: timeout"⟩] = "high" :=
  claim_mqtt_visibility [⟨"MQTT Node", "All", "Connection", "Failed: timeout"⟩]
    (by decide) (by decide)

/-- Claim C2: for each of CPU, memory and disk the value compared against
the static threshold (65, 80, 85) is the maximum over the returned
datapoints, and an issue is appended iff that value strictly exceeds the
threshold — equality appends nothing. The memory value is the max of the
datapoints the scan chose (`memChosen`); the disk value is the usage of the
preferred `valid_disks` entry, each of which is the max of its metric's
datapoints. -/
theorem claim_thresholds_strict (name instId : String) (pts : List Rat) (v : Rat)
    (hv : listMax pts = some v) :
    (v ∈ pts ∧ ∀ x ∈ pts, x ≤ v) ∧
    (∀ issues, (cpuBlock name (Except.ok pts) issues).2 =
        issues ++ (if CPU_THRESHOLD < v
          then [⟨"EC2", name, "CPU", statusHigh v⟩] else [])) ∧
    (∀ issues ms, memChosen instId ms = some pts →
        (memBlock name instId (Except.ok ms) issues).2 =
          issues ++ (if MEMORY_THRESHOLD < v
            then [⟨"EC2", name, "Memory", statusHigh v⟩] else [])) ∧
    (∀ issues ms p u, choosePreferred (valid_disks instId ms) = some (p, u) →
        (diskBlock name instId (Except.ok ms) issues).2 =
          issues ++ (if DISK_THRESHOLD < u
            then [⟨"EC2", name, "Disk", statusHigh u⟩] else [])) ∧
    (∀ ms, ∀ e ∈ valid_disks instId ms, ∃ m ∈ ms, listMax m.datapoints = some e.2) := by
  refine ⟨listMax_spec pts v hv, ?_, ?_, ?_, ?_⟩
  · intro issues
    by_cases ht : CPU_THRESHOLD < v
    · simp [cpuBlock, hv, ht]
    · simp [cpuBlock, hv, ht]
  · intro issues ms h
    rw [memBlock_snd_eq_loop, (memLoop_of_chosen name instId pts v hv ms issues h).1]
  · intro issues ms p u h
    by_cases ht : DISK_THRESHOLD < u
    · simp [diskBlock, h, ht]
    · simp [diskBlock, h, ht]
  · intro ms e he
    obtain ⟨m, hm, -, -, h3, -⟩ := (mem_valid_disks instId ms e).mp he
    exact ⟨m, hm, h3⟩

/-- Claim C2 witness: with datapoints maxing at 66 the CPU issue is appended;
with a memory metric maxing exactly at the threshold 80 nothing is appended. -/
theorem claim_thresholds_strict_witness :
    (cpuBlock "n" (Except.ok [64, 66]) []).2 =
      [] ++ [⟨"EC2", "n", "CPU", statusHigh 66⟩] ∧
    (memBlock "n" "i-1" (Except.ok [⟨⟨some "i-1", none⟩, [80, 79]⟩]) []).2 = [] := by
  constructor
  · have h := (claim_thresholds_strict "n" "i-1" [64, 66] 66 (by decide)).2.1 []
    rw [h, if_pos (show CPU_THRESHOLD < (66 : Rat) by decide)]
  · have h := (claim_thresholds_strict "n" "i-1" [80, 79] 80 (by decide)).2.2.1
      [] [⟨⟨some "i-1", none⟩, [80, 79]⟩] (by decide)
    rw [h, if_neg (show ¬ MEMORY_THRESHOLD < (80 : Rat) by decide)]
    rfl

/-- Claim C9: when an instance has at least one surviving disk entry, exactly
one path is checked: the first preference-list path (/data, then /, then
/mnt) present among the entries, and with none present, an entry of maximal
usage; the disk comparison is made against exactly that entry's usage. -/
theorem claim_disk_choice (name instId : String) (ms : List MetricEntry)
    (issues : List Issue)
    (h : valid_disks instId ms ≠ []) :
    ∃ c : String × Rat,
      choosePreferred (valid_disks instId ms) = some c ∧
      c ∈ valid_disks instId ms ∧
      ((∃ d ∈ valid_disks instId ms, d.1 = "/data") →
          findDisk "/data" (valid_disks instId ms) = some c) ∧
      ((∀ d ∈ valid_disks instId ms, d.1 ≠ "/data") →
        (∃ d ∈ valid_disks instId ms, d.1 = "/") →
          findDisk "/" (valid_disks instId ms) = some c) ∧
      ((∀ d ∈ valid_disks instId ms, d.1 ≠ "/data") →
        (∀ d ∈ valid_disks instId ms, d.1 ≠ "/") →
        (∃ d ∈ valid_disks instId ms, d.1 = "/mnt") →
          findDisk "/mnt" (valid_disks instId ms) = some c) ∧
      ((∀ d ∈ valid_disks instId ms, d.1 ∉ preferred_paths) →
          ∀ d ∈ valid_disks instId ms, d.2 ≤ c.2) ∧
      (diskBlock name instId (Except.ok ms) issues).2 =
        issues ++ (if DISK_THRESHOLD < c.2
          then [⟨"EC2", name, "Disk", statusHigh c.2⟩] else []) := by
  obtain ⟨c, hc⟩ := choosePreferred_isSome _ h
  have hmem := choosePreferred_mem _ c hc
  refine ⟨c, hc, hmem, ?_, ?_, ?_, ?_, ?_⟩
  · rintro ⟨d, hd, hd1⟩
    cases hf : findDisk "/data" (valid_disks instId ms) with
    | none =>
      exfalso
      rw [findDisk, List.find?_eq_none] at hf
      exact absurd (by simpa using hd1) (by simpa using hf d hd)
    | some d' =>
      simp only [choosePreferred, hf] at hc
      exact hc
  · intro hnone
    rintro ⟨d, hd, hd1⟩
    have h1 : findDisk "/data" (valid_disks instId ms) = none := by
      rw [findDisk, List.find?_eq_none]
      intro x hx
      simpa using hnone x hx
    cases hf : findDisk "/" (valid_disks instId ms) with
    | none =>
      exfalso
      rw [findDisk, List.find?_eq_none] at hf
      exact absurd (by simpa using hd1) (by simpa using hf d hd)
    | some d' =>
      simp only [choosePreferred, h1, hf] at hc
      exact hc
  · intro hnone1 hnone2
    rintro ⟨d, hd, hd1⟩
    have h1 : findDisk "/data" (valid_disks instId ms) = none := by
      rw [findDisk, List.find?_eq_none]
      intro x hx
      simpa using hnone1 x hx
    have h2 : findDisk "/" (valid_disks instId ms) = none := by
      rw [findDisk, List.find?_eq_none]
      intro x hx
      simpa using hnone2 x hx
    cases hf : findDisk "/mnt" (valid_disks instId ms) with
    | none =>
      exfalso
      rw [findDisk, List.find?_eq_none] at hf
      exact absurd (by simpa using hd1) (by simpa using hf d hd)
    | some d' =>
      simp only [choosePreferred, h1, h2, hf] at hc
      exact hc
  · intro hnp
    have hsplit : ∀ d ∈ valid_disks instId ms,
        d.1 ≠ "/data" ∧ d.1 ≠ "/" ∧ d.1 ≠ "/mnt" := by
      intro d hd
      have := hnp d hd
      simpa [preferred_paths] using this
    have h1 : findDisk "/data" (valid_disks instId ms) = none := by
      rw [findDisk, List.find?_eq_none]
      intro x hx
      simpa using (hsplit x hx).1
    have h2 : findDisk "/" (valid_disks instId ms) = none := by
      rw [findDisk, List.find?_eq_none]
      intro x hx
      simpa using (hsplit x hx).2.1
    have h3 : findDisk "/mnt" (valid_disks instId ms) = none := by
      rw [findDisk, List.find?_eq_none]
      intro x hx
      simpa using (hsplit x hx).2.2
    simp only [choosePreferred, h1, h2, h3] at hc
    exact (sortedTop_spec _ c hc).2
  · by_cases ht : DISK_THRESHOLD < c.2
    · simp [diskBlock, hc, ht]
    · simp [diskBlock, hc, ht]

/-- Claim C9 witness: with no preference-list path mounted, the entry of
maximal usage (here /b at 90) is the one checked, and 90 > 85 yields the
Disk issue. -/
theorem claim_disk_choice_witness :
    valid_disks "i-1"
        [⟨⟨some "i-1", some "/a"⟩, [30]⟩, ⟨⟨some "i-1", some "/b"⟩, [90]⟩] ≠ [] ∧
    (diskBlock "n" "i-1" (Except.ok
        [⟨⟨some "i-1", some "/a"⟩, [30]⟩, ⟨⟨some "i-1", some "/b"⟩, [90]⟩]) []).2 =
      [] ++ [⟨"EC2", "n", "Disk", statusHigh 90⟩] := by
  have hne : valid_disks "i-1"
      [⟨⟨some "i-1", some "/a"⟩, [30]⟩, ⟨⟨some "i-1", some "/b"⟩, [90]⟩] ≠ [] := by
    decide
  refine ⟨hne, ?_⟩
  obtain ⟨c, hc, -, -, -, -, -, heq⟩ :=
    claim_disk_choice "n" "i-1"
      [⟨⟨some "i-1", some "/a"⟩, [30]⟩, ⟨⟨some "i-1", some "/b"⟩, [90]⟩] [] hne
  have hcv : c = ("/b", (90 : Rat)) := by
    have h2 : choosePreferred (valid_disks "i-1"
        [⟨⟨some "i-1", some "/a"⟩, [30]⟩, ⟨⟨some "i-1", some "/b"⟩, [90]⟩]) =
        some ("/b", (90 : Rat)) := by decide
    rw [hc] at h2
    exact Option.some.inj h2
  subst hcv
  rw [heq, if_pos (show DISK_THRESHOLD < (("/b", (90 : Rat))).2 by decide)]

/-- Claim C5: a run executes its checks strictly sequentially in the fixed
order Beanstalk, EC2, FOTA, MQTT, summary, notification — the trace starts
with exactly those five check sections in that order followed by no further
check, and the final issues list is the concatenation of the per-check
contributions in that same order. -/
theorem claim_sequential_order (w : World) :
    (∃ tail, (runMain w).1 =
        [Event.check "monitor_beanstalk" (monitor_beanstalk w.eb []).1,
         Event.check "monitor_ec2" (monitor_ec2 w.ec2 []).1,
         Event.check "check_fota_api" (check_fota_api w.fota []).1,
         Event.check "monitor_mqtt_nodes" (monitor_mqtt_nodes w.mqttCreds w.mqtt []).1,
         Event.check "print_summary" (print_summary (runMain w).2)] ++ tail ∧
        ∀ e ∈ tail, e.isCheck = false) ∧
    (runMain w).2 =
      (monitor_beanstalk w.eb []).2 ++ (monitor_ec2 w.ec2 []).2 ++
        (check_fota_api w.fota []).2 ++ (monitor_mqtt_nodes w.mqttCreds w.mqtt []).2 := by
  have e21 := congrArg Prod.fst (monitor_ec2_state w.ec2 (monitor_beanstalk w.eb []).2)
  have e22 := congrArg Prod.snd (monitor_ec2_state w.ec2 (monitor_beanstalk w.eb []).2)
  dsimp only at e21 e22
  have e31 := congrArg Prod.fst (check_fota_api_state w.fota
    ((monitor_beanstalk w.eb []).2 ++ (monitor_ec2 w.ec2 []).2))
  have e32 := congrArg Prod.snd (check_fota_api_state w.fota
    ((monitor_beanstalk w.eb []).2 ++ (monitor_ec2 w.ec2 []).2))
  dsimp only at e31 e32
  have e41 := congrArg Prod.fst (monitor_mqtt_nodes_state w.mqttCreds w.mqtt
    ((monitor_beanstalk w.eb []).2 ++ (monitor_ec2 w.ec2 []).2 ++
      (check_fota_api w.fota []).2))
  have e42 := congrArg Prod.snd (monitor_mqtt_nodes_state w.mqttCreds w.mqtt
    ((monitor_beanstalk w.eb []).2 ++ (monitor_ec2 w.ec2 []).2 ++
      (check_fota_api w.fota []).2))
  dsimp only at e41 e42
  constructor
  · refine ⟨Event.printReport (String.intercalate "\x0A"
        ((monitor_beanstalk w.eb []).1 ++ (monitor_ec2 w.ec2 []).1 ++
          (check_fota_api w.fota []).1 ++ (monitor_mqtt_nodes w.mqttCreds w.mqtt []).1 ++
          print_summary (runMain w).2)) ::
        send_sns w.snsTopicArn w.sns (subjectOf (runMain w).2)
          (String.intercalate "\x0A"
            ((monitor_beanstalk w.eb []).1 ++ (monitor_ec2 w.ec2 []).1 ++
              (check_fota_api w.fota []).1 ++ (monitor_mqtt_nodes w.mqttCreds w.mqtt []).1 ++
              print_summary (runMain w).2)) (runMain w).2, ?_, ?_⟩
    · simp only [runMain, e21, e22, e31, e32, e41, e42]
      rfl
    · intro e he
      rcases List.mem_cons.mp he with rfl | he
      · rfl
      · simp only [send_sns] at he
        rcases List.mem_cons.mp he with rfl | he
        · rfl
        · cases hs : w.sns with
          | ok m =>
            rw [hs] at he
            simp only [List.mem_singleton] at he
            subst he
            rfl
          | error m =>
            rw [hs] at he
            simp only [List.mem_singleton] at he
            subst he
            rfl
  · simp only [runMain, e22, e32, e42]

/-- Claim C1: every run makes exactly one SNS publish call, after all checks
are complete, and its message is the run's report, ending with the issues
summary computed from the full list of issue records accumulated during the
run (with subject and urgency also computed from that final list). -/
theorem claim_single_notification (w : World) :
    ∃ pre tail head,
      (runMain w).1 = pre ++ Event.snsPublish w.snsTopicArn
          (subjectOf (runMain w).2)
          (String.intercalate "\x0A" (head ++ print_summary (runMain w).2))
          (urgencyOf (runMain w).2) :: tail ∧
      (∀ e ∈ pre, e.isPublish = false) ∧
      (∀ e ∈ tail, e.isPublish = false) ∧
      (∀ e ∈ tail, e.isCheck = false) := by
  refine ⟨[Event.check "monitor_beanstalk" (monitor_beanstalk w.eb []).1,
      Event.check "monitor_ec2" (monitor_ec2 w.ec2 (monitor_beanstalk w.eb []).2).1,
      Event.check "check_fota_api" (check_fota_api w.fota
        (monitor_ec2 w.ec2 (monitor_beanstalk w.eb []).2).2).1,
      Event.check "monitor_mqtt_nodes" (monitor_mqtt_nodes w.mqttCreds w.mqtt
        (check_fota_api w.fota (monitor_ec2 w.ec2 (monitor_beanstalk w.eb []).2).2).2).1,
      Event.check "print_summary" (print_summary (runMain w).2),
      Event.printReport (String.intercalate "\x0A"
        ((monitor_beanstalk w.eb []).1 ++
          (monitor_ec2 w.ec2 (monitor_beanstalk w.eb []).2).1 ++
          (check_fota_api w.fota (monitor_ec2 w.ec2 (monitor_beanstalk w.eb []).2).2).1 ++
          (monitor_mqtt_nodes w.mqttCreds w.mqtt (check_fota_api w.fota
            (monitor_ec2 w.ec2 (monitor_beanstalk w.eb []).2).2).2).1 ++
          print_summary (runMain w).2))],
    (match w.sns with
     | .ok msgId => [Event.printLine ("✅ SNS message sent. ID: " ++ msgId)]
     | .error e => [Event.printLine ("❌ SNS publish failed: " ++ e)]),
    (monitor_beanstalk w.eb []).1 ++
      (monitor_ec2 w.ec2 (monitor_beanstalk w.eb []).2).1 ++
      (check_fota_api w.fota (monitor_ec2 w.ec2 (monitor_beanstalk w.eb []).2).2).1 ++
      (monitor_mqtt_nodes w.mqttCreds w.mqtt (check_fota_api w.fota
        (monitor_ec2 w.ec2 (monitor_beanstalk w.eb []).2).2).2).1, ?_, ?_, ?_, ?_⟩
  · simp only [runMain, send_sns]
  · intro e he
    simp only [List.mem_cons, List.mem_singleton] at he
    rcases he with rfl | rfl | rfl | rfl | rfl | rfl | h
    · rfl
    · rfl
    · rfl
    · rfl
    · rfl
    · rfl
    · cases h
  · intro e he
    cases hs : w.sns with
    | ok m =>
      rw [hs] at he
      simp only [List.mem_singleton] at he
      subst he
      rfl
    | error m =>
      rw [hs] at he
      simp only [List.mem_singleton] at he
      subst he
      rfl
  · intro e he
    cases hs : w.sns with
    | ok m =>
      rw [hs] at he
      simp only [List.mem_singleton] at he
      subst he
      rfl
    | error m =>
      rw [hs] at he
      simp only [List.mem_singleton] at he
      subst he
      rfl

end Monitoring
